import Mathlib

/-!
Verification of the Security-Cammera repository's presence-event pipeline.

The definitions below are a shallow embedding of the Python sources:
  * `src/agent/src/config.py`     — the configuration constants,
  * `src/agent/src/event_handler.py` — `ClipWriter` and `EventHandler`,
  * `src/src/main.py`             — the capture-loop cadence,
  * `src/src/notifier.py`         — the Telegram notification sink.

Timestamps (values of Python's `time.monotonic()`) and the float-valued
configuration constants are modelled as rationals; Python's `int()` and
`round()` built-ins are modelled exactly, including round-half-to-even.
Side effects that the claims talk about (firing an event, logging a
departure, sending or logging in the notifier) are made explicit as
result fields or effect lists.
-/

set_option linter.unusedVariables false

/-- Python's `int()` applied to a float: truncation toward zero. -/
def pyInt (q : ℚ) : ℤ :=
  if 0 ≤ q then q.floor else q.ceil

/-- Python's `round()` applied to a float: round half to even. -/
def pyRound (q : ℚ) : ℤ :=
  let f := q.floor
  let frac := q - (f : ℚ)
  if frac < 1 / 2 then f
  else if 1 / 2 < frac then f + 1
  else if f % 2 = 0 then f else f + 1

/-- One person detection (only the confidence is ever inspected by the
event pipeline; the box coordinates are carried opaquely). -/
structure Detection where
  confidence : ℚ
deriving DecidableEq

/-- The configuration constants of `src/agent/src/config.py` that the
event pipeline reads. -/
structure Config where
  EVENT_COOLDOWN_SECONDS : ℚ
  SAVE_SNAPSHOTS : Bool
  SAVE_CLIPS : Bool
  CLIP_DURATION_S : ℚ
  CLIP_FPS : ℚ
  FRAME_SKIP : ℕ
deriving DecidableEq

/-- The values assigned in `src/agent/src/config.py`. -/
def securityConfig : Config :=
  { EVENT_COOLDOWN_SECONDS := 10
    SAVE_SNAPSHOTS := true
    SAVE_CLIPS := true
    CLIP_DURATION_S := 8
    CLIP_FPS := 20
    FRAME_SKIP := 1 }

/-- `ClipWriter` (event_handler.py): wraps a video writer and accepts
frames until the target duration is reached.  `written` counts the
frames actually handed to the underlying writer. -/
structure ClipWriter where
  filepath : String
  max_frames : ℤ
  written : ℕ
deriving DecidableEq

namespace ClipWriter

/-- `ClipWriter.__init__`: `_max_frames = int(CLIP_DURATION_S * CLIP_FPS)`,
`_written = 0`. -/
def init (cfg : Config) (filepath : String) : ClipWriter :=
  { filepath := filepath
    max_frames := pyInt (cfg.CLIP_DURATION_S * cfg.CLIP_FPS)
    written := 0 }

/-- `ClipWriter.is_finished`: `self._written >= self._max_frames`. -/
def is_finished (c : ClipWriter) : Bool :=
  decide (c.max_frames ≤ (c.written : ℤ))

/-- `ClipWriter.write`: writes one frame to the underlying writer only
while the clip is still open; otherwise does nothing. -/
def write (c : ClipWriter) : ClipWriter :=
  if c.is_finished then c else { c with written := c.written + 1 }

end ClipWriter

/-- Iterated `ClipWriter.write` on a freshly constructed clip:
`clipWrites cfg p n` is the writer after `n` calls to `write`. -/
def clipWrites (cfg : Config) (p : String) : ℕ → ClipWriter
  | 0 => ClipWriter.init cfg p
  | n + 1 => ClipWriter.write (clipWrites cfg p n)

/-- The mutable state of an `EventHandler` instance
(`_last_event_time`, `_active_clip`, `_person_present`,
`_last_seen_time`). -/
structure EHState where
  last_event_time : ℚ
  active_clip : Option ClipWriter
  person_present : Bool
  last_seen_time : ℚ
deriving DecidableEq

/-- Result of one `EventHandler.handle` call: the updated state, whether
`_fire_event` was invoked, whether a departure was logged, and the
returned alert-active flag. -/
structure HandleResult where
  state : EHState
  fired : Bool
  departure_logged : Bool
  alert_active : Bool
deriving DecidableEq

namespace EventHandler

/-- Class constant `ABSENCE_GRACE_SECONDS = 2.0`. -/
def ABSENCE_GRACE_SECONDS : ℚ := 2

/-- The field values set by `EventHandler.__init__`. -/
def initialState : EHState :=
  { last_event_time := 0
    active_clip := Option.none
    person_present := false
    last_seen_time := 0 }

/-- `EventHandler.__init__`: creates directories, builds the logger,
sets the initial field values and sends the session-start notification.
It performs no validation of any configuration value and cannot fail
(short of an OS error creating directories), hence always `ok`. -/
def init (cfg : Config) : Except String EHState :=
  Except.ok initialState

/-- `EventHandler._fire_event`: log, optional snapshot, optional clip
(guarded by `SAVE_CLIPS and self._active_clip is None`; the trigger
frame is written into the new clip immediately), Telegram alert.  Only
the state effects are modelled here. -/
def fire_event (cfg : Config) (s : EHState) (clip_path : String) : EHState :=
  if cfg.SAVE_CLIPS = true ∧ s.active_clip = Option.none then
    { s with active_clip :=
        Option.some (ClipWriter.write (ClipWriter.init cfg clip_path)) }
  else s

/-- `EventHandler.handle`: feed the active clip, run the presence-state
machine, return the alert-active flag. -/
def handle (cfg : Config) (s : EHState) (now : ℚ) (detections : List Detection)
    (clip_path : String) : HandleResult :=
  let n_ppl := detections.length
  let active1 : Option ClipWriter :=
    match s.active_clip with
    | Option.some c =>
      let c1 := ClipWriter.write c
      if c1.is_finished then Option.none else Option.some c1
    | Option.none => Option.none
  let s1 : EHState := { s with active_clip := active1 }
  if 0 < n_ppl then
    let s2 : EHState := { s1 with last_seen_time := now }
    if s2.person_present then
      { state := s2, fired := false, departure_logged := false
        alert_active := s2.person_present || s2.active_clip.isSome }
    else if cfg.EVENT_COOLDOWN_SECONDS ≤ now - s2.last_event_time then
      let s3 : EHState := { s2 with person_present := true, last_event_time := now }
      let s4 : EHState := fire_event cfg s3 clip_path
      { state := s4, fired := true, departure_logged := false
        alert_active := s4.person_present || s4.active_clip.isSome }
    else
      { state := s2, fired := false, departure_logged := false
        alert_active := s2.person_present || s2.active_clip.isSome }
  else
    let absent_for := now - s1.last_seen_time
    if s1.person_present = true ∧ ABSENCE_GRACE_SECONDS ≤ absent_for then
      let s2 : EHState := { s1 with person_present := false }
      { state := s2, fired := false, departure_logged := true
        alert_active := s2.person_present || s2.active_clip.isSome }
    else
      { state := s1, fired := false, departure_logged := false
        alert_active := s1.person_present || s1.active_clip.isSome }

end EventHandler

/-- Placeholder clip path used when folding `handle` over a frame
sequence (the path never influences the state machine). -/
def emptyPath : String := ""

/-- Fold `EventHandler.handle` over a list of `(now, detections)`
frames, returning the final state and the number of fired events. -/
def runHandle (cfg : Config) : EHState → List (ℚ × List Detection) → EHState × ℕ
  | s, [] => (s, 0)
  | s, (t, d) :: rest =>
    let r := EventHandler.handle cfg s t d emptyPath
    let p := runHandle cfg r.state rest
    (p.1, (if r.fired then 1 else 0) + p.2)

/-- C1 scratch test state. -/
def sAbsent : EHState :=
  { last_event_time := 0
    active_clip := Option.none
    person_present := false
    last_seen_time := 0 }

/-- The loop-local state of `main` (src/src/main.py) that the cadence
claims are about: the running frame counter and the latest detection
list, reused across skipped frames. -/
structure LoopState where
  frame_count : ℕ
  detections : List Detection
deriving DecidableEq

/-- What one iteration of the `while True` body in `main` did: the new
loop state, whether the detector was invoked, whether
`event_handler.handle` was called, and the detection list handed to it. -/
structure IterResult where
  state : LoopState
  detector_ran : Bool
  handle_called : Bool
  handled_detections : List Detection
deriving DecidableEq

/-- One iteration of the capture loop in `main`: `ret` is whether
`cap.read()` succeeded, `paused` is the pause flag, and `newDets` is
what `detector.detect(frame)` would return on this frame.  A failed
read loops before the counter increment; a paused frame increments the
counter but skips detection and handling; otherwise the detector runs
exactly when `frame_count % FRAME_SKIP == 0` and `handle` always runs. -/
def loopIter (cfg : Config) (ls : LoopState) (ret : Bool) (paused : Bool)
    (newDets : List Detection) : IterResult :=
  if ret = false then
    { state := ls, detector_ran := false, handle_called := false
      handled_detections := ls.detections }
  else
    let fc := ls.frame_count + 1
    if paused then
      { state := { ls with frame_count := fc }, detector_ran := false
        handle_called := false, handled_detections := ls.detections }
    else
      let ran := fc % cfg.FRAME_SKIP = 0
      let dets := if ran then newDets else ls.detections
      { state := { frame_count := fc, detections := dets }
        detector_ran := decide ran, handle_called := true
        handled_detections := dets }

/-- One observable action of `notifier.py`: an HTTP send to Telegram
(photo or text) or a line written through the module logger. -/
inductive TelegramEffect where
  | sendPhoto : String → TelegramEffect
  | sendText : String → TelegramEffect
  | logWarning : String → TelegramEffect
deriving DecidableEq

/-- The environment `notifier.py` reads at import time
(`TELEGRAM_BOT_TOKEN`, `TELEGRAM_CHAT_ID`; empty string when unset). -/
structure NotifierEnv where
  TELEGRAM_BOT_TOKEN : String
  TELEGRAM_CHAT_ID : String
deriving DecidableEq

namespace notifier

/-- `notifier._is_configured`: `bool(_BOT_TOKEN and _CHAT_ID)`. -/
def is_configured (env : NotifierEnv) : Bool :=
  !(env.TELEGRAM_BOT_TOKEN == "") && !(env.TELEGRAM_CHAT_ID == "")

/-- The warning text `send_alert` logs when unconfigured. -/
def notConfiguredWarning : String :=
  "[Telegram] Not configured — set TELEGRAM_BOT_TOKEN and TELEGRAM_CHAT_ID in your .env file."

/-- Session-start message text. -/
def sessionStartMsg : String :=
  "🟢 *Security camera started* — monitoring for persons."

/-- Session-end message text. -/
def sessionEndMsg : String :=
  "🔴 *Security camera stopped.*"

/-- `notifier.send_alert`: when unconfigured it logs a warning and
returns; otherwise it dispatches a photo message (or a text fallback
when the frame is missing or JPEG encoding failed). -/
def send_alert (env : NotifierEnv) (frameIsSome : Bool) (encodeOk : Bool)
    (caption : String) : List TelegramEffect :=
  if !(is_configured env) then [TelegramEffect.logWarning notConfiguredWarning]
  else if frameIsSome && encodeOk then [TelegramEffect.sendPhoto caption]
  else [TelegramEffect.sendText caption]

/-- `notifier.send_session_start`: silently returns when unconfigured. -/
def send_session_start (env : NotifierEnv) : List TelegramEffect :=
  if !(is_configured env) then []
  else [TelegramEffect.sendText sessionStartMsg]

/-- `notifier.send_session_end`: silently returns when unconfigured. -/
def send_session_end (env : NotifierEnv) : List TelegramEffect :=
  if !(is_configured env) then []
  else [TelegramEffect.sendText sessionEndMsg]

end notifier

/-- Tracker state at the instant of a confirmed arrival: person present,
seen and fired at time 0. -/
def sPresentAt0 : EHState :=
  { last_event_time := 0
    active_clip := Option.none
    person_present := true
    last_seen_time := 0 }

/-- A configuration with a non-positive cooldown (claim C7 probes
construction-time validation against it). -/
def badConfig : Config :=
  { securityConfig with EVENT_COOLDOWN_SECONDS := -1 }

/-- A notifier environment with the bot token unset. -/
def unconfEnv : NotifierEnv :=
  { TELEGRAM_BOT_TOKEN := ""
    TELEGRAM_CHAT_ID := "123456" }

/-- A sample caption for notifier witnesses. -/
def sampleCaption : String :=
  "PERSON DETECTED"

/-- An already-open clip writer mid-recording (one frame written out of
160), used to probe the at-most-one-clip guard. -/
def openClip : ClipWriter :=
  { filepath := emptyPath
    max_frames := 160
    written := 1 }

/-- Tracker state with a clip from a previous visit still recording and
the person currently absent. -/
def sAbsentWithClip : EHState :=
  { last_event_time := 0
    active_clip := Option.some openClip
    person_present := false
    last_seen_time := 0 }

/-- A clip writer whose target is already met, for probing the
post-completion no-op behaviour of `write`. -/
def finishedClip : ClipWriter :=
  { filepath := emptyPath
    max_frames := 0
    written := 0 }

/-- Helper: while a person is already present, a frame with detections
changes nothing but `last_seen_time` and fires no event. -/
theorem handle_present_step (cfg : Config) (s : EHState) (now : ℚ)
    (dets : List Detection) (p : String)
    (hp : s.person_present = true) (hd : 0 < dets.length) :
    (EventHandler.handle cfg s now dets p).fired = false ∧
    (EventHandler.handle cfg s now dets p).state.person_present = true := by
  unfold EventHandler.handle
  simp [hd, hp]

/-- Helper: while absent, an empty frame leaves the presence fields and
timestamps untouched and fires nothing. -/
theorem handle_absent_empty_step (cfg : Config) (s : EHState) (now : ℚ)
    (p : String) (habs : s.person_present = false) :
    (EventHandler.handle cfg s now [] p).fired = false ∧
    (EventHandler.handle cfg s now [] p).state.person_present = false ∧
    (EventHandler.handle cfg s now [] p).state.last_seen_time = s.last_seen_time ∧
    (EventHandler.handle cfg s now [] p).state.last_event_time = s.last_event_time := by
  unfold EventHandler.handle
  simp [habs]

/-- Helper: over any frame sequence in which every frame has a
detection, a tracker that is already present fires no further event and
stays present. -/
theorem runHandle_present_zero (cfg : Config) :
    ∀ frames : List (ℚ × List Detection), ∀ s : EHState,
      s.person_present = true → (∀ q ∈ frames, 0 < q.2.length) →
      (runHandle cfg s frames).2 = 0 ∧
      (runHandle cfg s frames).1.person_present = true := by
  intro frames
  induction frames with
  | nil =>
    intro s hp _
    exact ⟨rfl, hp⟩
  | cons a rest ih =>
    intro s hp hf
    obtain ⟨t, d⟩ := a
    have hd : 0 < d.length := hf (t, d) (List.mem_cons_self _ _)
    have hstep := handle_present_step cfg s t d emptyPath hp hd
    have hrest := ih (EventHandler.handle cfg s t d emptyPath).state hstep.2
      (fun q hq => hf q (List.mem_cons_of_mem _ hq))
    exact ⟨by simp [runHandle, hstep.1, hrest.1], hrest.2⟩

/-- Helper: over any all-empty frame sequence, an absent tracker keeps
all presence fields and fires nothing. -/
theorem runHandle_absent_empty (cfg : Config) :
    ∀ times : List ℚ, ∀ s : EHState,
      s.person_present = false →
      (runHandle cfg s (times.map fun t => (t, []))).2 = 0 ∧
      (runHandle cfg s (times.map fun t => (t, []))).1.person_present = false ∧
      (runHandle cfg s (times.map fun t => (t, []))).1.last_seen_time = s.last_seen_time ∧
      (runHandle cfg s (times.map fun t => (t, []))).1.last_event_time = s.last_event_time := by
  intro times
  induction times with
  | nil =>
    intro s habs
    exact ⟨rfl, habs, rfl, rfl⟩
  | cons t rest ih =>
    intro s habs
    have hstep := handle_absent_empty_step cfg s t emptyPath habs
    have hrest := ih (EventHandler.handle cfg s t [] emptyPath).state hstep.2.1
    simp only [List.map_cons, runHandle]
    refine ⟨?_, hrest.2.1, ?_, ?_⟩
    · simp [hstep.1, hrest.1]
    · rw [hrest.2.2.1, hstep.2.2.1]
    · rw [hrest.2.2.2, hstep.2.2.2]

/-- Helper: `_fire_event` touches only `active_clip`; every presence
field survives it unchanged. -/
theorem fire_event_fields (cfg : Config) (s : EHState) (p : String) :
    (EventHandler.fire_event cfg s p).person_present = s.person_present ∧
    (EventHandler.fire_event cfg s p).last_event_time = s.last_event_time ∧
    (EventHandler.fire_event cfg s p).last_seen_time = s.last_seen_time := by
  unfold EventHandler.fire_event
  split <;> exact ⟨rfl, rfl, rfl⟩

/-- C1: an arrival (≥1 detection while absent) inside the cooldown
window fires nothing and does not flip `person_present`; `last_seen_time`
is still updated to `now`. -/
theorem claim1_cooldown_blocks_arrival (cfg : Config) (s : EHState) (now : ℚ)
    (detections : List Detection) (p : String)
    (hdet : 0 < detections.length) (habs : s.person_present = false)
    (hcd : now - s.last_event_time < cfg.EVENT_COOLDOWN_SECONDS) :
    (EventHandler.handle cfg s now detections p).fired = false ∧
    (EventHandler.handle cfg s now detections p).state.person_present = false ∧
    (EventHandler.handle cfg s now detections p).state.last_seen_time = now := by
  unfold EventHandler.handle
  simp only [hdet, if_pos, habs]
  simp [habs, not_le.mpr hcd]

/-- Witness for C1 at a concrete input. -/
theorem claim1_cooldown_blocks_arrival_witness :
    0 < ([⟨1⟩] : List Detection).length ∧
    sAbsent.person_present = false ∧
    (3 : ℚ) - sAbsent.last_event_time < securityConfig.EVENT_COOLDOWN_SECONDS ∧
    ((EventHandler.handle securityConfig sAbsent 3 [⟨1⟩] emptyPath).fired = false ∧
     (EventHandler.handle securityConfig sAbsent 3 [⟨1⟩] emptyPath).state.person_present = false ∧
     (EventHandler.handle securityConfig sAbsent 3 [⟨1⟩] emptyPath).state.last_seen_time = 3) :=
  ⟨by decide, rfl, by norm_num [sAbsent, securityConfig],
   claim1_cooldown_blocks_arrival securityConfig sAbsent 3 [⟨1⟩] emptyPath
     (by decide) rfl (by norm_num [sAbsent, securityConfig])⟩

/-- C2: an event fires only on a `false→true` presence transition
(detections present, cooldown satisfied), and over a run of consecutive
detection frames started from an absent state with cooldown satisfied,
exactly one event fires — on the first frame of the run. -/
theorem claim2_fire_only_on_transition (cfg : Config) :
    (∀ s : EHState, ∀ now : ℚ, ∀ dets : List Detection, ∀ p : String,
      (EventHandler.handle cfg s now dets p).fired = true →
      s.person_present = false ∧ 0 < dets.length ∧
      cfg.EVENT_COOLDOWN_SECONDS ≤ now - s.last_event_time ∧
      (EventHandler.handle cfg s now dets p).state.person_present = true) ∧
    (∀ s : EHState, ∀ t0 : ℚ, ∀ d0 : List Detection,
      ∀ rest : List (ℚ × List Detection),
      s.person_present = false → 0 < d0.length →
      cfg.EVENT_COOLDOWN_SECONDS ≤ t0 - s.last_event_time →
      (∀ q ∈ rest, 0 < q.2.length) →
      (EventHandler.handle cfg s t0 d0 emptyPath).fired = true ∧
      (runHandle cfg s ((t0, d0) :: rest)).2 = 1) := by
  constructor
  · intro s now dets p h
    by_cases hd : 0 < dets.length
    · by_cases hp : s.person_present = true
      · rw [(handle_present_step cfg s now dets p hp hd).1] at h
        cases h
      · have hp' : s.person_present = false := by simpa using hp
        by_cases hcd : cfg.EVENT_COOLDOWN_SECONDS ≤ now - s.last_event_time
        · refine ⟨hp', hd, hcd, ?_⟩
          unfold EventHandler.handle
          simp [hd, hp', hcd, (fire_event_fields cfg _ p).1]
        · have hfalse : (EventHandler.handle cfg s now dets p).fired = false := by
            unfold EventHandler.handle
            simp [hd, hp', hcd]
          rw [hfalse] at h
          cases h
    · by_cases hg : s.person_present = true ∧
          EventHandler.ABSENCE_GRACE_SECONDS ≤ now - s.last_seen_time
      · have hfalse : (EventHandler.handle cfg s now dets p).fired = false := by
          unfold EventHandler.handle
          simp [hd, hg]
        rw [hfalse] at h
        cases h
      · have hfalse : (EventHandler.handle cfg s now dets p).fired = false := by
          unfold EventHandler.handle
          simp [hd, hg]
        rw [hfalse] at h
        cases h
  · intro s t0 d0 rest habs hd hcd hrest
    have hfired : (EventHandler.handle cfg s t0 d0 emptyPath).fired = true := by
      unfold EventHandler.handle
      simp [hd, habs, hcd]
    have hpres :
        (EventHandler.handle cfg s t0 d0 emptyPath).state.person_present = true := by
      unfold EventHandler.handle
      simp [hd, habs, hcd, (fire_event_fields cfg _ emptyPath).1]
    refine ⟨hfired, ?_⟩
    have hzero := runHandle_present_zero cfg rest
      (EventHandler.handle cfg s t0 d0 emptyPath).state hpres hrest
    simp [runHandle, hfired, hzero.1]

/-- Witness for C2 at concrete inputs: a two-frame run of detections
from the initial absent state with cooldown satisfied. -/
theorem claim2_fire_only_on_transition_witness :
    (sAbsent.person_present = false ∧ 0 < ([⟨1⟩] : List Detection).length ∧
     securityConfig.EVENT_COOLDOWN_SECONDS ≤ (20 : ℚ) - sAbsent.last_event_time ∧
     (∀ q ∈ ([((21 : ℚ), ([⟨1⟩] : List Detection))] : List (ℚ × List Detection)),
        0 < q.2.length)) ∧
    (EventHandler.handle securityConfig sAbsent 20 [⟨1⟩] emptyPath).fired = true ∧
    (runHandle securityConfig sAbsent
        ((20, [⟨1⟩]) :: [((21 : ℚ), ([⟨1⟩] : List Detection))])).2 = 1 :=
  ⟨⟨rfl, by decide, by norm_num [sAbsent, securityConfig], by decide⟩,
   (claim2_fire_only_on_transition securityConfig).2 sAbsent 20 [⟨1⟩]
     [((21 : ℚ), ([⟨1⟩] : List Detection))] rfl (by decide)
     (by norm_num [sAbsent, securityConfig]) (by decide)⟩

/-- C9: after a confirmed departure, any number of empty-frame `handle`
calls fires nothing and leaves `person_present`, `last_seen_time` and
`last_event_time` unchanged. -/
theorem claim9_departure_idempotent (cfg : Config) (s : EHState)
    (times : List ℚ) (habs : s.person_present = false) :
    (runHandle cfg s (times.map fun t => (t, []))).2 = 0 ∧
    (runHandle cfg s (times.map fun t => (t, []))).1.person_present = false ∧
    (runHandle cfg s (times.map fun t => (t, []))).1.last_seen_time = s.last_seen_time ∧
    (runHandle cfg s (times.map fun t => (t, []))).1.last_event_time = s.last_event_time :=
  runHandle_absent_empty cfg times s habs

/-- Witness for C9 at a concrete input: three empty frames after
departure. -/
theorem claim9_departure_idempotent_witness :
    sAbsent.person_present = false ∧
    ((runHandle securityConfig sAbsent
        (([1, 2, 3] : List ℚ).map fun t => (t, []))).2 = 0 ∧
     (runHandle securityConfig sAbsent
        (([1, 2, 3] : List ℚ).map fun t => (t, []))).1.person_present = false ∧
     (runHandle securityConfig sAbsent
        (([1, 2, 3] : List ℚ).map fun t => (t, []))).1.last_seen_time =
       sAbsent.last_seen_time ∧
     (runHandle securityConfig sAbsent
        (([1, 2, 3] : List ℚ).map fun t => (t, []))).1.last_event_time =
       sAbsent.last_event_time) :=
  ⟨rfl, claim9_departure_idempotent securityConfig sAbsent [1, 2, 3] rfl⟩

/-- Helper: Batteries `Rat.floor` agrees with `Int.floor` on `ℚ`. -/
theorem rat_floor_eq_floor (q : ℚ) : q.floor = ⌊q⌋ := by
  rw [Rat.floor_def', Rat.floor_def]

/-- Helper: `ClipWriter.write` never changes the target frame count. -/
theorem write_max (c : ClipWriter) :
    (ClipWriter.write c).max_frames = c.max_frames := by
  unfold ClipWriter.write
  split <;> rfl

/-- Helper: the written-frame counter after one `write`. -/
theorem write_written (c : ClipWriter) :
    (ClipWriter.write c).written =
      if c.max_frames ≤ (c.written : ℤ) then c.written else c.written + 1 := by
  unfold ClipWriter.write ClipWriter.is_finished
  by_cases h : c.max_frames ≤ (c.written : ℤ)
  · simp [h]
  · simp [h]

/-- Helper: after `n` writes on a fresh clip under the shipped
configuration, the counter is `min n 160` and the target is `160`. -/
theorem clipWrites_written (p : String) :
    ∀ n : ℕ, (clipWrites securityConfig p n).max_frames = 160 ∧
      (clipWrites securityConfig p n).written = min n 160 := by
  intro n
  induction n with
  | zero =>
    constructor
    · show pyInt (securityConfig.CLIP_DURATION_S * securityConfig.CLIP_FPS) = 160
      norm_num [pyInt, securityConfig, rat_floor_eq_floor]
    · rfl
  | succ n ih =>
    obtain ⟨hm, hw⟩ := ih
    constructor
    · show (ClipWriter.write _).max_frames = 160
      rw [write_max, hm]
    · show (ClipWriter.write _).written = min (n + 1) 160
      rw [write_written, hm, hw]
      split <;> omega

/-- C3: under the shipped configuration an auto-finalized clip holds
exactly `round(CLIP_DURATION_S * CLIP_FPS) = 160` frames (the code's
`int` truncation agrees with the spec's `round` on these values), and a
`write` performed after `is_finished` is a no-op. -/
theorem claim3_clip_length (p : String) :
    ((ClipWriter.init securityConfig p).max_frames =
      pyRound (securityConfig.CLIP_DURATION_S * securityConfig.CLIP_FPS)) ∧
    (∀ n : ℕ, (clipWrites securityConfig p n).is_finished = true →
      ((clipWrites securityConfig p n).written : ℤ) =
        pyRound (securityConfig.CLIP_DURATION_S * securityConfig.CLIP_FPS)) ∧
    (∀ c : ClipWriter, c.is_finished = true → ClipWriter.write c = c) := by
  have hround :
      pyRound (securityConfig.CLIP_DURATION_S * securityConfig.CLIP_FPS) = 160 := by
    norm_num [pyRound, securityConfig, rat_floor_eq_floor]
  refine ⟨?_, ?_, ?_⟩
  · rw [hround]
    exact (clipWrites_written p 0).1
  · intro n hfin
    rw [hround]
    obtain ⟨hm, hw⟩ := clipWrites_written p n
    unfold ClipWriter.is_finished at hfin
    rw [hm, hw] at hfin
    rw [hw]
    have h160 : (160 : ℤ) ≤ ((min n 160 : ℕ) : ℤ) := of_decide_eq_true hfin
    omega
  · intro c hfin
    unfold ClipWriter.write
    rw [hfin]
    simp

/-- Witness for C3 at concrete inputs: 160 writes finish the clip with
exactly 160 frames, and a further write on a finished clip changes
nothing. -/
theorem claim3_clip_length_witness :
    (clipWrites securityConfig emptyPath 160).is_finished = true ∧
    ((clipWrites securityConfig emptyPath 160).written : ℤ) =
      pyRound (securityConfig.CLIP_DURATION_S * securityConfig.CLIP_FPS) ∧
    finishedClip.is_finished = true ∧
    ClipWriter.write finishedClip = finishedClip := by
  have hfin : (clipWrites securityConfig emptyPath 160).is_finished = true := by
    unfold ClipWriter.is_finished
    rw [(clipWrites_written emptyPath 160).1, (clipWrites_written emptyPath 160).2]
    simp
  refine ⟨hfin, (claim3_clip_length emptyPath).2.1 160 hfin, by decide,
    (claim3_clip_length emptyPath).2.2 finishedClip (by decide)⟩

/-- C4 counterexample: at an elapsed absence of exactly 2.0 s — equal
to, but not exceeding, `ABSENCE_GRACE_SECONDS` and hence still within
the grace window — the code already flips presence to false. -/
theorem claim4_grace_boundary_cex :
    (EventHandler.handle securityConfig sPresentAt0 2 [] emptyPath).state.person_present
      = false ∧
    ¬ (EventHandler.ABSENCE_GRACE_SECONDS < 2 - sPresentAt0.last_seen_time) := by
  constructor
  · unfold EventHandler.handle
    norm_num [sPresentAt0, EventHandler.ABSENCE_GRACE_SECONDS]
  · norm_num [sPresentAt0, EventHandler.ABSENCE_GRACE_SECONDS]

/-- C4 (amended): with zero detections while present, presence flips to
false exactly when the elapsed absence reaches or exceeds
`ABSENCE_GRACE_SECONDS` (boundary included, `>=` in the code); strictly
inside the grace window presence stays true and nothing besides the
clip feed changes. -/
theorem claim4_departure_grace (cfg : Config) (s : EHState) (now : ℚ) (p : String)
    (hp : s.person_present = true) :
    (EventHandler.ABSENCE_GRACE_SECONDS ≤ now - s.last_seen_time →
      (EventHandler.handle cfg s now [] p).state.person_present = false ∧
      (EventHandler.handle cfg s now [] p).departure_logged = true) ∧
    (now - s.last_seen_time < EventHandler.ABSENCE_GRACE_SECONDS →
      (EventHandler.handle cfg s now [] p).state.person_present = true ∧
      (EventHandler.handle cfg s now [] p).departure_logged = false ∧
      (EventHandler.handle cfg s now [] p).fired = false ∧
      (EventHandler.handle cfg s now [] p).state.last_seen_time = s.last_seen_time ∧
      (EventHandler.handle cfg s now [] p).state.last_event_time = s.last_event_time) := by
  constructor
  · intro hg
    unfold EventHandler.handle
    simp [hp, hg]
  · intro hg
    unfold EventHandler.handle
    simp [hp, not_le.mpr hg]

/-- Witness for C4 (amended) at concrete inputs: elapsed 5 s flips
presence, elapsed 1 s keeps it. -/
theorem claim4_departure_grace_witness :
    sPresentAt0.person_present = true ∧
    (EventHandler.ABSENCE_GRACE_SECONDS ≤ (5 : ℚ) - sPresentAt0.last_seen_time ∧
      ((EventHandler.handle securityConfig sPresentAt0 5 [] emptyPath).state.person_present
          = false ∧
       (EventHandler.handle securityConfig sPresentAt0 5 [] emptyPath).departure_logged
          = true)) ∧
    ((1 : ℚ) - sPresentAt0.last_seen_time < EventHandler.ABSENCE_GRACE_SECONDS ∧
      (EventHandler.handle securityConfig sPresentAt0 1 [] emptyPath).state.person_present
        = true) :=
  ⟨rfl,
   ⟨by norm_num [sPresentAt0, EventHandler.ABSENCE_GRACE_SECONDS],
    (claim4_departure_grace securityConfig sPresentAt0 5 emptyPath rfl).1
      (by norm_num [sPresentAt0, EventHandler.ABSENCE_GRACE_SECONDS])⟩,
   ⟨by norm_num [sPresentAt0, EventHandler.ABSENCE_GRACE_SECONDS],
    ((claim4_departure_grace securityConfig sPresentAt0 1 emptyPath rfl).2
      (by norm_num [sPresentAt0, EventHandler.ABSENCE_GRACE_SECONDS])).1⟩⟩

/-- C5: `active_clip` is a single optional slot, and the event-fire
procedure never replaces a still-active clip: when a clip is open it
survives `_fire_event` untouched, and through a whole `handle` call the
old clip (not yet finished after this frame's feed) keeps recording —
no second writer is opened. -/
theorem claim5_single_clip (cfg : Config) :
    (∀ s : EHState, ∀ c : ClipWriter, ∀ p : String,
      s.active_clip = Option.some c →
      (EventHandler.fire_event cfg s p).active_clip = Option.some c) ∧
    (∀ s : EHState, ∀ now : ℚ, ∀ dets : List Detection, ∀ p : String,
      ∀ c : ClipWriter,
      s.active_clip = Option.some c →
      (ClipWriter.write c).is_finished = false →
      (EventHandler.handle cfg s now dets p).state.active_clip =
        Option.some (ClipWriter.write c)) := by
  have hfe : ∀ s : EHState, ∀ c : ClipWriter, ∀ p : String,
      s.active_clip = Option.some c →
      (EventHandler.fire_event cfg s p).active_clip = Option.some c := by
    intro s c p hc
    unfold EventHandler.fire_event
    rw [if_neg]
    · exact hc
    · simp [hc]
  refine ⟨hfe, ?_⟩
  intro s now dets p c hc hnf
  unfold EventHandler.handle
  rw [hc]
  simp only [hnf, Bool.false_eq_true, if_false]
  split_ifs <;> simp_all [EventHandler.fire_event]

/-- Witness for C5 at concrete inputs: a mid-recording clip survives
both `_fire_event` and a full `handle` call with a fresh arrival. -/
theorem claim5_single_clip_witness :
    sAbsentWithClip.active_clip = Option.some openClip ∧
    (ClipWriter.write openClip).is_finished = false ∧
    (EventHandler.fire_event securityConfig sAbsentWithClip emptyPath).active_clip =
      Option.some openClip ∧
    (EventHandler.handle securityConfig sAbsentWithClip 20 [⟨1⟩]
        emptyPath).state.active_clip = Option.some (ClipWriter.write openClip) :=
  ⟨rfl, by decide,
   (claim5_single_clip securityConfig).1 sAbsentWithClip openClip emptyPath rfl,
   (claim5_single_clip securityConfig).2 sAbsentWithClip 20 [⟨1⟩] emptyPath openClip
     rfl (by decide)⟩

/-- C6: on a successfully read, non-paused frame the detector runs iff
`frame_count % FRAME_SKIP == 0` (counter already incremented for this
frame), skipped frames reuse the previous detection list unchanged, and
`handle` is called either way. -/
theorem claim6_frame_skip (cfg : Config) (ls : LoopState) (newDets : List Detection)
    (hskip : 1 ≤ cfg.FRAME_SKIP) :
    ((loopIter cfg ls true false newDets).detector_ran = true ↔
      (ls.frame_count + 1) % cfg.FRAME_SKIP = 0) ∧
    (loopIter cfg ls true false newDets).handle_called = true ∧
    ((ls.frame_count + 1) % cfg.FRAME_SKIP = 0 →
      (loopIter cfg ls true false newDets).handled_detections = newDets) ∧
    ((ls.frame_count + 1) % cfg.FRAME_SKIP ≠ 0 →
      (loopIter cfg ls true false newDets).handled_detections = ls.detections) := by
  unfold loopIter
  by_cases h : (ls.frame_count + 1) % cfg.FRAME_SKIP = 0 <;> simp [h]

/-- Witness for C6 at concrete inputs under the shipped configuration
(`FRAME_SKIP = 1`, so every frame detects). -/
theorem claim6_frame_skip_witness :
    1 ≤ securityConfig.FRAME_SKIP ∧
    (((loopIter securityConfig ⟨0, []⟩ true false [⟨1⟩]).detector_ran = true ↔
        (0 + 1) % securityConfig.FRAME_SKIP = 0) ∧
      (loopIter securityConfig ⟨0, []⟩ true false [⟨1⟩]).handle_called = true ∧
      ((0 + 1) % securityConfig.FRAME_SKIP = 0 →
        (loopIter securityConfig ⟨0, []⟩ true false [⟨1⟩]).handled_detections = [⟨1⟩]) ∧
      ((0 + 1) % securityConfig.FRAME_SKIP ≠ 0 →
        (loopIter securityConfig ⟨0, []⟩ true false [⟨1⟩]).handled_detections = [])) :=
  ⟨by decide, claim6_frame_skip securityConfig ⟨0, []⟩ [⟨1⟩] (by decide)⟩

/-- C7 counterexample: constructing the tracker with a non-positive
cooldown succeeds — `__init__` performs no validation — refuting the
claimed rejection at construction time. -/
theorem claim7_no_validation_cex :
    badConfig.EVENT_COOLDOWN_SECONDS ≤ 0 ∧
    EventHandler.init badConfig = Except.ok EventHandler.initialState := by
  constructor
  · norm_num [badConfig, securityConfig]
  · rfl

/-- C7 (amended): construction never rejects any configuration: for
every `cfg`, including non-positive cooldowns (and with the absence
grace period a fixed, never-validated class constant), `__init__`
succeeds and yields the standard initial state. -/
theorem claim7_init_never_fails (cfg : Config) :
    EventHandler.init cfg = Except.ok EventHandler.initialState := rfl

/-- C8 counterexample: with the sink unconfigured, `send_alert` is not
silent — it emits a "not configured" warning through the logger. -/
theorem claim8_unconfigured_warns_cex :
    notifier.is_configured unconfEnv = false ∧
    notifier.send_alert unconfEnv true true sampleCaption =
      [TelegramEffect.logWarning notifier.notConfiguredWarning] ∧
    notifier.send_alert unconfEnv true true sampleCaption ≠ [] := by
  refine ⟨rfl, rfl, ?_⟩
  simp [notifier.send_alert, notifier.is_configured, unconfEnv]

/-- C8 (amended): when the sink is unconfigured no call sends anything
or raises; `send_session_start` and `send_session_end` are silent
no-ops, while `send_alert` produces exactly one logged warning (and no
send). -/
theorem claim8_sink_unconfigured (env : NotifierEnv) (f e : Bool) (cap : String)
    (h : notifier.is_configured env = false) :
    notifier.send_session_start env = [] ∧
    notifier.send_session_end env = [] ∧
    notifier.send_alert env f e cap =
      [TelegramEffect.logWarning notifier.notConfiguredWarning] := by
  unfold notifier.send_session_start notifier.send_session_end notifier.send_alert
  simp [h]

/-- Witness for C8 (amended) at a concrete unconfigured environment. -/
theorem claim8_sink_unconfigured_witness :
    notifier.is_configured unconfEnv = false ∧
    (notifier.send_session_start unconfEnv = [] ∧
     notifier.send_session_end unconfEnv = [] ∧
     notifier.send_alert unconfEnv true true sampleCaption =
       [TelegramEffect.logWarning notifier.notConfiguredWarning]) :=
  ⟨rfl, claim8_sink_unconfigured unconfEnv true true sampleCaption rfl⟩

/-- C10: `_last_event_time` is initialised to 0.0, so the session's very
first arrival is gated against clock origin 0: from the freshly
constructed state, a first detection frame at `now` strictly below the
cooldown fires nothing and presence stays false, although no event has
ever fired. -/
theorem claim10_first_arrival_gated (cfg : Config) (s0 : EHState) (now : ℚ)
    (dets : List Detection) (p : String)
    (hinit : EventHandler.init cfg = Except.ok s0)
    (hdet : 0 < dets.length)
    (hnow : now < cfg.EVENT_COOLDOWN_SECONDS) :
    s0.last_event_time = 0 ∧
    (EventHandler.handle cfg s0 now dets p).fired = false ∧
    (EventHandler.handle cfg s0 now dets p).state.person_present = false := by
  have hs0 : s0 = EventHandler.initialState := by
    unfold EventHandler.init at hinit
    injection hinit with h
    exact h.symm
  subst hs0
  have hcd : ¬ (cfg.EVENT_COOLDOWN_SECONDS ≤ now) := not_le.mpr hnow
  refine ⟨rfl, ?_, ?_⟩
  all_goals
    unfold EventHandler.handle
    simp [hdet, hcd, EventHandler.initialState]

/-- Witness for C10 at a concrete input: first detection at monotonic
time 3 s with the shipped 10 s cooldown. -/
theorem claim10_first_arrival_gated_witness :
    EventHandler.init securityConfig = Except.ok EventHandler.initialState ∧
    0 < ([⟨1⟩] : List Detection).length ∧
    (3 : ℚ) < securityConfig.EVENT_COOLDOWN_SECONDS ∧
    (EventHandler.initialState.last_event_time = 0 ∧
     (EventHandler.handle securityConfig EventHandler.initialState 3 [⟨1⟩]
        emptyPath).fired = false ∧
     (EventHandler.handle securityConfig EventHandler.initialState 3 [⟨1⟩]
        emptyPath).state.person_present = false) :=
  ⟨rfl, by decide, by norm_num [securityConfig],
   claim10_first_arrival_gated securityConfig EventHandler.initialState 3 [⟨1⟩]
     emptyPath rfl (by decide) (by norm_num [securityConfig])⟩
